import Mathlib

/-!
# Merco — core LLM protocol layer and agent loop, verified claims

A shallow embedding of the Merco repository's core: the provider-neutral
protocol model (`merco-llmproxy/src/traits.rs`), the configuration layer
(`merco-llmproxy/src/config.rs`, `merco-llmproxy/src/lib.rs`), the OpenAI
adapter's response mapping and streaming-delta reassembler
(`merco-llmproxy/src/providers/openai.rs`), and the agent conversation
loop (`merco-agents/src/agent/agent.rs`).

Modelling conventions:
* Rust `Option<T>` becomes `Option T`; `Result<T, E>` becomes `Except E T`;
  `String` stays `String`; `u32`/`usize`/`u16` become `Nat` (none of the
  verified claims involve overflow of these counters).
* External capabilities the spec treats as black boxes — the tool registry
  (`execute_tool`), the task's `get_format_prompt`/`validate_output`, and
  the HTTP transport — enter as function parameters (`execTool`,
  `formatPrompt`, `validate`) or as an oracle list of provider responses
  consumed one per completion call.
* The streaming reassembler's `HashMap<usize, ToolCallStreamDelta>` is
  modelled as a function `Nat → Option ToolCallStreamDelta`; `clear`
  becomes the constantly-`none` map.
* SSE byte framing and serde JSON parsing are abstracted: a transport
  chunk is a list of already-classified `data:` lines (`SseLine`), which is
  the exact interface the reassembly logic in `completion_stream` consumes.
-/

namespace Merco

/-! ## Protocol model (`merco-llmproxy/src/traits.rs`) -/

/-- Message roles, as used by `merco-agents/src/agent/agent.rs`
(`ChatMessageRole`); the spec's data model for `ChatMessage.role`. -/
inductive ChatMessageRole where
  | System
  | User
  | Assistant
  | Tool
deriving DecidableEq, Repr

/-- Rust `traits.rs` `ToolCallFunction`. -/
structure ToolCallFunction where
  name : String
  arguments : String
deriving DecidableEq, Repr

/-- Rust `traits.rs` `ToolCallRequest`. -/
structure ToolCallRequest where
  id : String
  function : ToolCallFunction
deriving DecidableEq, Repr

/-- Rust `traits.rs` `ChatMessage`. -/
structure ChatMessage where
  role : ChatMessageRole
  content : Option String
  tool_calls : Option (List ToolCallRequest)
  tool_call_id : Option String
deriving DecidableEq, Repr

/-- Rust `traits.rs` `TokenUsage`. -/
structure TokenUsage where
  prompt_tokens : Nat
  completion_tokens : Nat
  total_tokens : Nat
deriving DecidableEq, Repr

/-- Rust `traits.rs` `CompletionKind`. -/
inductive CompletionKind where
  | Message (content : String)
  | ToolCall (tool_calls : List ToolCallRequest)
deriving DecidableEq, Repr

/-- Rust `traits.rs` `CompletionResponse`. -/
structure CompletionResponse where
  kind : CompletionKind
  usage : Option TokenUsage
  finish_reason : Option String
deriving DecidableEq, Repr

/-- Rust `traits.rs` `ToolCallFunctionStreamDelta`. -/
structure ToolCallFunctionStreamDelta where
  name : Option String
  arguments : Option String
deriving DecidableEq, Repr

/-- Rust `traits.rs` `ToolCallStreamDelta`. -/
structure ToolCallStreamDelta where
  index : Nat
  id : Option String
  function : Option ToolCallFunctionStreamDelta
deriving DecidableEq, Repr

/-- Rust `traits.rs` `StreamContentDelta`. -/
inductive StreamContentDelta where
  | Text (s : String)
  | ToolCallDelta (ds : List ToolCallStreamDelta)
deriving DecidableEq, Repr

/-- Rust `traits.rs` `CompletionStreamChunk`. -/
structure CompletionStreamChunk where
  delta : StreamContentDelta
  usage : Option TokenUsage
  finish_reason : Option String
deriving DecidableEq, Repr

/-- Rust `traits.rs` `ProviderError`. The `reqwest::Error` and
`serde_json::Error` payloads are modelled by their rendered messages. -/
inductive ProviderErrorS where
  | RequestError (msg : String)
  | ApiError (status : Nat) (message : String)
  | ParseError (msg : String)
  | ConfigError (msg : String)
  | StreamError (msg : String)
  | MissingConfig (msg : String)
  | ToolFormatError (msg : String)
  | Unsupported (msg : String)
  | Unexpected (msg : String)
deriving DecidableEq, Repr

/-! ## Configuration (`merco-llmproxy/src/config.rs`, `lib.rs`) -/

/-- Rust `config.rs` `Provider`. -/
inductive Provider where
  | OpenAI
  | Ollama
  | Anthropic
  | Custom
deriving DecidableEq, Repr

/-- Rust `config.rs` `LlmConfig`. -/
structure LlmConfig where
  provider : Provider
  model : String
  api_key : Option String
  base_url : Option String
deriving DecidableEq, Repr

/-- Rust `config.rs` `ConfigError`. -/
inductive ConfigError where
  | MissingApiKey (p : Provider)
  | MissingBaseUrl
deriving DecidableEq, Repr

/-- The `Debug` rendering of `Provider` used by `ConfigError`'s
`thiserror` message `"Missing API key for provider: {0:?}"`. -/
def Provider.debugStr : Provider → String
  | .OpenAI => "OpenAI"
  | .Ollama => "Ollama"
  | .Anthropic => "Anthropic"
  | .Custom => "Custom"

/-- Rust `ConfigError`'s `thiserror` `Display` rendering. -/
def ConfigError.toMessage : ConfigError → String
  | .MissingApiKey p => "Missing API key for provider: " ++ p.debugStr
  | .MissingBaseUrl => "Missing base URL for custom provider"

/-- Rust `config.rs` `LlmConfig::validate`. -/
def LlmConfig.validate (c : LlmConfig) : Except ConfigError Unit :=
  match c.provider with
  | .OpenAI | .Anthropic =>
      if c.api_key.isNone then .error (.MissingApiKey c.provider) else .ok ()
  | .Custom =>
      if c.base_url.isNone then .error .MissingBaseUrl else .ok ()
  | .Ollama => .ok ()

/-- The provider instance `get_provider` hands back (the `Arc<dyn
LlmProvider>`), reduced to its dynamic tag plus the captured config. -/
inductive ProviderInstance where
  | openAI (config : LlmConfig)
  | ollama (config : LlmConfig)
deriving DecidableEq, Repr

/-- Rust `lib.rs` `get_provider`: validate the config, then dispatch on the
provider tag; `Anthropic`/`Custom` are `Unsupported`. -/
def get_provider (config : LlmConfig) : Except ProviderErrorS ProviderInstance :=
  match config.validate with
  | .error e => .error (.ConfigError e.toMessage)
  | .ok _ =>
      match config.provider with
      | .OpenAI => .ok (.openAI config)
      | .Ollama => .ok (.ollama config)
      | .Anthropic => .error (.Unsupported "Anthropic provider not yet implemented")
      | .Custom => .error (.Unsupported "Custom provider logic not yet implemented")

/-! ## OpenAI non-streaming response mapping (`providers/openai.rs`) -/

/-- Rust `openai.rs` `OpenAIFunctionCall`. -/
structure OpenAIFunctionCall where
  name : String
  arguments : String
deriving DecidableEq, Repr

/-- Rust `openai.rs` `OpenAIToolCall`. -/
structure OpenAIToolCall where
  id : String
  tool_type : String
  function : OpenAIFunctionCall
deriving DecidableEq, Repr

/-- Rust `openai.rs` `OpenAIMessage`. -/
structure OpenAIMessage where
  role : String
  content : Option String
  tool_calls : Option (List OpenAIToolCall)
deriving DecidableEq, Repr

/-- Rust `openai.rs` `OpenAIChoice`. -/
structure OpenAIChoice where
  index : Nat
  message : OpenAIMessage
  finish_reason : Option String
deriving DecidableEq, Repr

/-- Rust `openai.rs` `OpenAIUsage`. -/
structure OpenAIUsage where
  prompt_tokens : Nat
  completion_tokens : Nat
  total_tokens : Nat
deriving DecidableEq, Repr

/-- Rust `openai.rs` `OpenAIChatResponse`. -/
structure OpenAIChatResponse where
  model : String
  choices : List OpenAIChoice
  usage : Option OpenAIUsage
deriving DecidableEq, Repr

/-- The `OpenAIUsage → TokenUsage` mapping `completion` and
`completion_stream` both perform. -/
def usageToTokenUsage (u : OpenAIUsage) : TokenUsage :=
  ⟨u.prompt_tokens, u.completion_tokens, u.total_tokens⟩

/-- Rust `openai.rs` `OpenAIToolCall → ToolCallRequest` mapping
(`OpenAIProvider::completion`, the `generic_tool_calls` map). -/
def toGenericToolCall (tc : OpenAIToolCall) : ToolCallRequest :=
  ⟨tc.id, ⟨tc.function.name, tc.function.arguments⟩⟩

/-- Rust `OpenAIProvider::completion`, lines 236–279 of `openai.rs`: the pure
response-mapping tail that runs after a successful HTTP round-trip and
JSON decode. Takes the first choice (else `ParseError`), maps usage 1:1,
and picks the result kind: `tool_calls` present ⇒ `ToolCall` of the mapped
list; else `content` present ⇒ `Message`; else the `finish_reason`
fallback branches. -/
def completion_map (resp : OpenAIChatResponse) : Except ProviderErrorS CompletionResponse :=
  match resp.choices with
  | [] => .error (.ParseError "No choices found in OpenAI response")
  | first_choice :: _ =>
      let usage := resp.usage.map usageToTokenUsage
      let kind :=
        match first_choice.message.tool_calls with
        | some tool_calls => CompletionKind.ToolCall (tool_calls.map toGenericToolCall)
        | none =>
            match first_choice.message.content with
            | some content => CompletionKind.Message content
            | none =>
                if first_choice.finish_reason = some "tool_calls" then
                  CompletionKind.ToolCall []
                else
                  CompletionKind.Message ""
      .ok ⟨kind, usage, first_choice.finish_reason⟩

/-! ## Streaming structures and the delta reassembler (`providers/openai.rs`) -/

/-- Rust `openai.rs` `OpenAIStreamFunctionDelta`. -/
structure OpenAIStreamFunctionDelta where
  name : Option String
  arguments : Option String
deriving DecidableEq, Repr

/-- Rust `openai.rs` `OpenAIStreamToolCallDelta`. -/
structure OpenAIStreamToolCallDelta where
  index : Nat
  id : Option String
  tool_type : Option String
  function : Option OpenAIStreamFunctionDelta
deriving DecidableEq, Repr

/-- Rust `openai.rs` `OpenAIStreamDelta`. -/
structure OpenAIStreamDelta where
  role : Option String
  content : Option String
  tool_calls : Option (List OpenAIStreamToolCallDelta)
deriving DecidableEq, Repr

/-- Rust `openai.rs` `OpenAIStreamChoice`. -/
structure OpenAIStreamChoice where
  index : Nat
  delta : OpenAIStreamDelta
  finish_reason : Option String
deriving DecidableEq, Repr

/-- Rust `openai.rs` `OpenAIChatStreamResponse`. -/
structure OpenAIChatStreamResponse where
  model : String
  choices : List OpenAIStreamChoice
  usage : Option OpenAIUsage
deriving DecidableEq, Repr

/-- The reassembler's accumulator: `completion_stream`'s
`HashMap<usize, ToolCallStreamDelta>` as a partial map on indices. -/
def Aggregator : Type := Nat → Option ToolCallStreamDelta

/-- The empty accumulator (fresh map / after `clear()`). -/
def emptyAgg : Aggregator := fun _ => none

/-- One `data:` line of a transport chunk, as `completion_stream`'s line
loop classifies it: not a `data:` line at all; empty payload or the
`[DONE]` sentinel (both skipped by `continue`); a JSON payload that
decodes to `OpenAIChatStreamResponse`; or a payload serde rejects, whose
rendered error message is carried. -/
inductive SseLine where
  | other
  | done
  | payload (r : OpenAIChatStreamResponse)
  | malformed (emsg : String)
deriving DecidableEq, Repr

/-- Rust `completion_stream` lines 377–407 of `openai.rs`: fold one incoming
`OpenAIStreamToolCallDelta` into the accumulator. The entry for the
delta's index is looked up or freshly created; a present `id` is written
unconditionally; a present `function.name` is written unconditionally; a
present `function.arguments` fragment is appended to the stored buffer
(absent buffer read as `""`). Returns the updated map and the updated
entry (the `entry.clone()` pushed into `generic_deltas`). -/
def applyToolCallDelta (agg : Aggregator) (d : OpenAIStreamToolCallDelta) :
    Aggregator × ToolCallStreamDelta :=
  let entry0 : ToolCallStreamDelta :=
    match agg d.index with
    | some e => e
    | none => ⟨d.index, none, none⟩
  let entry1 : ToolCallStreamDelta :=
    match d.id with
    | some i => { entry0 with id := some i }
    | none => entry0
  let entry2 : ToolCallStreamDelta :=
    match d.function with
    | none => entry1
    | some func_delta =>
        let fe0 : ToolCallFunctionStreamDelta :=
          match entry1.function with
          | some f => f
          | none => ⟨none, none⟩
        let fe1 : ToolCallFunctionStreamDelta :=
          match func_delta.name with
          | some n => { fe0 with name := some n }
          | none => fe0
        let fe2 : ToolCallFunctionStreamDelta :=
          match func_delta.arguments with
          | some args_chunk =>
              { fe1 with arguments := some ((fe1.arguments.getD "") ++ args_chunk) }
          | none => fe1
        { entry1 with function := some fe2 }
  (fun j => if j = d.index then some entry2 else agg j, entry2)

/-- The `for tool_delta in tool_deltas` loop: fold each delta in order,
collecting the cloned entries into `generic_deltas`. -/
def applyToolCallDeltas (agg : Aggregator) :
    List OpenAIStreamToolCallDelta → Aggregator × List ToolCallStreamDelta
  | [] => (agg, [])
  | d :: rest =>
      let (agg1, e) := applyToolCallDelta agg d
      let (agg2, es) := applyToolCallDeltas agg1 rest
      (agg2, e :: es)

/-- Rust `completion_stream` lines 365–416 of `openai.rs`: the per-choice delta
dispatch. A present `content` that is non-empty emits a `Text` chunk and
clears the accumulator; a present but empty `content` does nothing (and
shadows any `tool_calls` in the same delta, because the branches are
`if let ... else if let`). Otherwise present `tool_calls` are folded and,
when the collected entries are non-empty, emitted as a `ToolCallDelta`
chunk. -/
def applyDelta (agg : Aggregator) (delta : OpenAIStreamDelta) :
    Aggregator × Option CompletionStreamChunk :=
  match delta.content with
  | some text_delta =>
      if text_delta.isEmpty then (agg, none)
      else (emptyAgg, some ⟨.Text text_delta, none, none⟩)
  | none =>
      match delta.tool_calls with
      | some tool_deltas =>
          let (agg1, generic_deltas) := applyToolCallDeltas agg tool_deltas
          if generic_deltas.isEmpty then (agg1, none)
          else (agg1, some ⟨.ToolCallDelta generic_deltas, none, none⟩)
      | none => (agg, none)

/-- The per-transport-chunk fold state of `completion_stream`'s closure:
`result_chunk`, `final_usage`, `final_reason`, plus the shared
accumulator. -/
structure ChunkState where
  result_chunk : Option CompletionStreamChunk
  final_usage : Option OpenAIUsage
  final_reason : Option String
  agg : Aggregator

/-- One iteration of the `for line in lines` loop: skip non-`data:` lines
and `[DONE]`/empty payloads; fail the stream on a malformed payload; on a
decoded payload record usage, then (on the first choice, if any) record a
`finish_reason` and dispatch the delta, a produced chunk overwriting
`result_chunk`. -/
def processLine (st : ChunkState) : SseLine → Except ProviderErrorS ChunkState
  | .other => .ok st
  | .done => .ok st
  | .malformed emsg => .error (.ParseError emsg)
  | .payload r =>
      let st1 : ChunkState :=
        match r.usage with
        | some u => { st with final_usage := some u }
        | none => st
      match r.choices with
      | [] => .ok st1
      | choice :: _ =>
          let st2 : ChunkState :=
            match choice.finish_reason with
            | some reason => { st1 with final_reason := some reason }
            | none => st1
          let (agg1, produced) := applyDelta st2.agg choice.delta
          .ok { st2 with
                  agg := agg1,
                  result_chunk :=
                    match produced with
                    | some ch => some ch
                    | none => st2.result_chunk }

/-- The whole `for line in lines` loop over one transport chunk. -/
def processLines (st : ChunkState) : List SseLine → Except ProviderErrorS ChunkState
  | [] => .ok st
  | l :: rest =>
      match processLine st l with
      | .error e => .error e
      | .ok st1 => processLines st1 rest

/-- Rust `completion_stream`'s whole per-transport-chunk closure (the body of
`try_filter_map`): fold the lines, then — only if no `result_chunk` was
produced from this same transport chunk and a `finish_reason` or usage was
collected — flush a final chunk with an empty `Text` delta carrying them.
Returns the accumulator to thread to the next chunk and the optional chunk
this transport chunk yields. -/
def processChunk (agg : Aggregator) (lines : List SseLine) :
    Except ProviderErrorS (Aggregator × Option CompletionStreamChunk) :=
  match processLines ⟨none, none, none, agg⟩ lines with
  | .error e => .error e
  | .ok st =>
      let out : Option CompletionStreamChunk :=
        if st.result_chunk.isNone && (st.final_reason.isSome || st.final_usage.isSome) then
          some ⟨.Text "", st.final_usage.map usageToTokenUsage, st.final_reason⟩
        else
          st.result_chunk
      .ok (st.agg, out)

/-- The output stream as the consumer sees it: transport chunks processed
in order through the shared accumulator, `none` results filtered out
(`try_filter_map`), a failing chunk yielding its error as the stream's
last item. The input list ending is the transport's EOF. -/
def runStream (agg : Aggregator) :
    List (List SseLine) → List (Except ProviderErrorS CompletionStreamChunk)
  | [] => []
  | c :: rest =>
      match processChunk agg c with
      | .error e => [.error e]
      | .ok (agg1, out) =>
          match out with
          | some ch => .ok ch :: runStream agg1 rest
          | none => runStream agg1 rest

/-! ### Observation helpers on the accumulator -/

/-- The stored `id` at an index, if an entry exists. -/
def aggId (agg : Aggregator) (i : Nat) : Option String :=
  match agg i with
  | some e => e.id
  | none => none

/-- The stored function `name` at an index, if present. -/
def aggName (agg : Aggregator) (i : Nat) : Option String :=
  match agg i with
  | some e =>
      match e.function with
      | some f => f.name
      | none => none
  | none => none

/-- The stored `arguments` buffer at an index, if present. -/
def aggArgs (agg : Aggregator) (i : Nat) : Option String :=
  match agg i with
  | some e =>
      match e.function with
      | some f => f.arguments
      | none => none
  | none => none

/-- A streamed tool-call delta carrying only an `arguments` fragment for
index `i` — the shape in which argument tokens arrive after the first
chunk. -/
def argDelta (i : Nat) (s : String) : OpenAIStreamToolCallDelta :=
  ⟨i, none, none, some ⟨none, some s⟩⟩

/-- Feed an ordered sequence of `arguments` fragments for index `i`
through the reassembler. -/
def applyArgFragments (agg : Aggregator) (i : Nat) : List String → Aggregator
  | [] => agg
  | s :: rest => applyArgFragments (applyToolCallDelta agg (argDelta i s)).1 i rest

/-- Concatenation of a list of strings in order. -/
def concatAll : List String → String
  | [] => ""
  | s :: rest => s ++ concatAll rest

/-! ## Agent conversation loop (`merco-agents/src/agent/agent.rs`)

The provider is modelled by an oracle: a list of `completion` outcomes
consumed one per call (`ProviderError`s already rendered by
`e.to_string()`, as `execute_with_llm` does). The tool bridge
(`execute_tool`, external to `src/`) is a parameter
`execTool : String → String → Except String String`, and the task's
black-box capabilities `get_format_prompt` / `validate_output` are the
parameters `formatPrompt` / `validate`. -/

/-- Rust `merco-agents/src/task/task.rs` `Task`. -/
structure Task where
  description : String
  expected_output : Option String
deriving DecidableEq, Repr

/-- Rust `Agent::execute_with_llm` lines 174–181 of `agent.rs`: the tool-result
content for one call — the bridge's result string, or the formatted error
message on a tool failure. -/
def toolResultContent (execTool : String → String → Except String String)
    (call : ToolCallRequest) : String :=
  match execTool call.function.name call.function.arguments with
  | .ok result => result
  | .error e => "Error executing tool " ++ call.function.name ++ ": " ++ e

/-- The Tool-role transcript entry appended for one completed tool call
(lines 182–187 of `agent.rs`): content is the bridge's result, and
`tool_call_id` echoes the call's `id`. -/
def toolMsg (execTool : String → String → Except String String)
    (call : ToolCallRequest) : ChatMessage :=
  ⟨.Tool, some (toolResultContent execTool call), none, some call.id⟩

/-- The `for call in tool_calls` loop (lines 174–188 of `agent.rs`),
instrumented: the first component records each `execute_tool` invocation
`(name, arguments)` in the order the loop performs them; the second is the
list of Tool-role messages the loop pushes. -/
def toolTurnsTraced (execTool : String → String → Except String String) :
    List ToolCallRequest → List (String × String) × List ChatMessage
  | [] => ([], [])
  | call :: rest =>
      let (invs, msgs) := toolTurnsTraced execTool rest
      ((call.function.name, call.function.arguments) :: invs,
       toolMsg execTool call :: msgs)

/-- The Tool-role messages the per-batch loop appends, in order. -/
def toolTurns (execTool : String → String → Except String String)
    (calls : List ToolCallRequest) : List ChatMessage :=
  (toolTurnsTraced execTool calls).2

/-- The Assistant turn carrying a tool-call set (lines 167–172 of
`agent.rs`): content absent, `tool_calls` present. -/
def assistantToolMsg (calls : List ToolCallRequest) : ChatMessage :=
  ⟨.Assistant, none, some calls, none⟩

/-- Result of one `execute_with_llm` run: the transcripts sent to the
provider (the `messages` snapshot of each issued `CompletionRequest`), the
final state of the mutable `messages` vector, the unconsumed oracle
suffix, and the outcome — `none` when the oracle ran out, i.e. the Rust
loop would issue yet another completion the model has no answer for. -/
structure ExecResult where
  trace : List (List ChatMessage)
  messages : List ChatMessage
  rest : List (Except String CompletionResponse)
  outcome : Option (Except String String)

/-- Rust `Agent::execute_with_llm` (lines 150–195 of `agent.rs`): loop —
issue a completion on the current transcript; a provider error returns
`Err(e.to_string())`; a `Message` returns its content; a `ToolCall`
appends one Assistant turn carrying the call set then one Tool turn per
call, and loops. -/
def execute_with_llm (execTool : String → String → Except String String) :
    List (Except String CompletionResponse) → List ChatMessage → ExecResult
  | [], messages => ⟨[], messages, [], none⟩
  | step :: rest, messages =>
      match step with
      | .error e => ⟨[messages], messages, rest, some (.error e)⟩
      | .ok response =>
          match response.kind with
          | .Message content => ⟨[messages], messages, rest, some (.ok content)⟩
          | .ToolCall tool_calls =>
              let messages1 :=
                messages ++ assistantToolMsg tool_calls :: toolTurns execTool tool_calls
              let r := execute_with_llm execTool rest messages1
              ⟨messages :: r.trace, r.messages, r.rest, r.outcome⟩

/-- Rust `Agent::call` lines 76–100 of `agent.rs`: the transcript seed rebuilt
at the top of every attempt — System backstory turn, User goals turn
(goals joined by newlines), User task turn combining description,
expected output and the task's format prompt. -/
def seedMessages (backstory : String) (goals : List String) (task : Task)
    (formatPrompt : String) : List ChatMessage :=
  [ ⟨.System, some backstory, none, none⟩,
    ⟨.User, some (String.intercalate "\n" goals), none, none⟩,
    ⟨.User, some ("TASK: " ++ task.description ++ "\n\nEXPECTED OUTPUT: "
        ++ task.expected_output.getD "None" ++ "\n\nOUTPUT FORMAT:\n" ++ formatPrompt),
      none, none⟩ ]

/-- The corrective User turn built on a validation failure (lines 133–141
of `agent.rs`). -/
def correctiveMsg (validation_error : String) : ChatMessage :=
  ⟨.User, some ("Your previous response was invalid: " ++ validation_error
      ++ ". Please provide a corrected response that follows the required format exactly."),
    none, none⟩

/-- Rust `Agent::call`'s `MAX_RETRIES`. -/
def MAX_RETRIES : Nat := 3

/-- The attempt loop of `Agent::call` (lines 73–146 of `agent.rs`),
recursing on the number of attempts left (`attemptsLeft = 1` is the Rust
`attempt == MAX_RETRIES` iteration; `attemptsLeft = 0` is the
post-loop fallthrough). Every iteration rebuilds `messages` from the seed:
the corrective turn the Rust source pushes onto its local `messages`
vector after a non-final validation failure is dropped by that rebuild, so
it appears nowhere in the next attempt's transcript and is omitted here.
Result: the concatenated request trace across attempts, and the outcome
(`none` propagating an oracle exhaustion). -/
def call_go (execTool : String → String → Except String String)
    (validate : String → Except String Unit) (seed : List ChatMessage) :
    Nat → List (Except String CompletionResponse) →
    List (List ChatMessage) × Option (Except String String)
  | 0, _ => ([], some (.error "Maximum retry attempts exceeded"))
  | attemptsLeft + 1, oracle =>
      let r := execute_with_llm execTool oracle seed
      match r.outcome with
      | none => (r.trace, none)
      | some (.error e) =>
          if attemptsLeft = 0 then
            (r.trace, some (.error ("LLM execution failed after "
              ++ toString MAX_RETRIES ++ " attempts: " ++ e)))
          else
            let (t, res) := call_go execTool validate seed attemptsLeft r.rest
            (r.trace ++ t, res)
      | some (.ok raw_result) =>
          match validate raw_result with
          | .ok _ => (r.trace, some (.ok raw_result))
          | .error validation_error =>
              if attemptsLeft = 0 then
                (r.trace, some (.error ("Output validation failed after "
                  ++ toString MAX_RETRIES ++ " attempts. Last error: "
                  ++ validation_error ++ ". Raw output: " ++ raw_result)))
              else
                let (t, res) := call_go execTool validate seed attemptsLeft r.rest
                (r.trace ++ t, res)

/-- Rust `Agent::call` (lines 70–147 of `agent.rs`). -/
def call (execTool : String → String → Except String String)
    (validate : String → Except String Unit) (backstory : String)
    (goals : List String) (task : Task) (formatPrompt : String)
    (oracle : List (Except String CompletionResponse)) :
    List (List ChatMessage) × Option (Except String String) :=
  call_go execTool validate (seedMessages backstory goals task formatPrompt)
    MAX_RETRIES oracle

/-- Rust `Agent::new` + `Agent::call` composed (`agent.rs` lines 54–68 with
`lib.rs` `get_provider`): construction runs `get_provider` first and an
error there surfaces before any attempt starts (the Rust `unwrap` panics
in `Agent::new`), so the attempt loop — and with it the provider oracle —
is never touched. -/
def agent_run (cfg : LlmConfig) (execTool : String → String → Except String String)
    (validate : String → Except String Unit) (backstory : String)
    (goals : List String) (task : Task) (formatPrompt : String)
    (oracle : List (Except String CompletionResponse)) :
    Except ProviderErrorS (List (List ChatMessage) × Option (Except String String)) :=
  match get_provider cfg with
  | .error e => .error e
  | .ok _ => .ok (call execTool validate backstory goals task formatPrompt oracle)

/-! ## Transcript role sequencing (the invariant of claim C3)

`justifiedFromB ctx ms` walks the transcript with `ctx` = the ids of the
nearest preceding Assistant message's `tool_calls`, provided only
Tool-role messages have intervened (`none` otherwise): each Tool-role
message must carry a `tool_call_id` drawn from that context. -/

/-- The `tool_calls` ids an Assistant message offers its tool results. -/
def msgToolIds (m : ChatMessage) : List String :=
  (m.tool_calls.getD []).map (fun c => c.id)

/-- Decidable transcript walk for the role-sequencing invariant. -/
def justifiedFromB : Option (List String) → List ChatMessage → Bool
  | _, [] => true
  | ctx, m :: rest =>
      match m.role with
      | .Tool =>
          (match ctx, m.tool_call_id with
           | some ids, some tid => ids.contains tid
           | _, _ => false) && justifiedFromB ctx rest
      | .Assistant => justifiedFromB (some (msgToolIds m)) rest
      | _ => justifiedFromB none rest

/-- The context after walking a transcript segment. -/
def ctxAfter : Option (List String) → List ChatMessage → Option (List String)
  | ctx, [] => ctx
  | ctx, m :: rest =>
      match m.role with
      | .Tool => ctxAfter ctx rest
      | .Assistant => ctxAfter (some (msgToolIds m)) rest
      | _ => ctxAfter none rest

/-- A transcript is well tool-sequenced when every Tool-role message's
`tool_call_id` is an id of the immediately preceding Assistant message's
`tool_calls`, only Tool-role messages standing between the two. -/
def ToolSeqOK (ms : List ChatMessage) : Prop :=
  justifiedFromB none ms = true

instance (ms : List ChatMessage) : Decidable (ToolSeqOK ms) := by
  unfold ToolSeqOK
  infer_instance

/-! ## Claim C8 -/

/-- C8: in non-streaming completion, when the first choice's message has
neither `content` nor `tool_calls`, the adapter does not fail: with
`finish_reason = "tool_calls"` it returns `ToolCall` with an empty call
list, and with any other `finish_reason` it returns `Message` with
empty-string content. -/
theorem empty_message_degrades_gracefully (resp : OpenAIChatResponse)
    (c : OpenAIChoice) (cs : List OpenAIChoice)
    (hc : resp.choices = c :: cs)
    (hcontent : c.message.content = none)
    (htools : c.message.tool_calls = none) :
    completion_map resp =
      .ok ⟨if c.finish_reason = some "tool_calls" then .ToolCall [] else .Message "",
           resp.usage.map usageToTokenUsage, c.finish_reason⟩ := by
  unfold completion_map
  rw [hc]
  simp [htools, hcontent]

/-- Witness for C8: a choice with no content, no tool calls and
`finish_reason = "tool_calls"` maps to an empty `ToolCall` result. -/
theorem empty_message_degrades_gracefully_witness :
    ((⟨"m", [⟨0, ⟨"assistant", none, none⟩, some "tool_calls"⟩], none⟩ :
        OpenAIChatResponse).choices
      = (⟨0, ⟨"assistant", none, none⟩, some "tool_calls"⟩ : OpenAIChoice) :: []) ∧
    completion_map ⟨"m", [⟨0, ⟨"assistant", none, none⟩, some "tool_calls"⟩], none⟩ =
      .ok ⟨if (⟨0, ⟨"assistant", none, none⟩, some "tool_calls"⟩ : OpenAIChoice).finish_reason
              = some "tool_calls" then .ToolCall [] else .Message "",
           (none : Option OpenAIUsage).map usageToTokenUsage,
           (⟨0, ⟨"assistant", none, none⟩, some "tool_calls"⟩ : OpenAIChoice).finish_reason⟩ :=
  ⟨rfl, empty_message_degrades_gracefully _ _ _ rfl rfl rfl⟩

/-! ## Claim C10 -/

/-- C10: in non-streaming completion, a present `tool_calls` field on the
first choice's message — even an empty list, and even when text content is
also present — takes strict precedence: the result is `ToolCall` built
from that list, and the content does not influence the result (it is
universally quantified away here). -/
theorem tool_calls_take_precedence_over_content (resp : OpenAIChatResponse)
    (c : OpenAIChoice) (cs : List OpenAIChoice) (tcs : List OpenAIToolCall)
    (hc : resp.choices = c :: cs)
    (htools : c.message.tool_calls = some tcs) :
    completion_map resp =
      .ok ⟨.ToolCall (tcs.map toGenericToolCall),
           resp.usage.map usageToTokenUsage, c.finish_reason⟩ := by
  unfold completion_map
  rw [hc]
  simp [htools]

/-- Witness for C10: `tool_calls: []` alongside `content: "hello"` yields
an empty `ToolCall` result and the content is discarded. -/
theorem tool_calls_take_precedence_over_content_witness :
    ((⟨"m", [⟨0, ⟨"assistant", some "hello", some []⟩, some "stop"⟩], none⟩ :
        OpenAIChatResponse).choices
      = (⟨0, ⟨"assistant", some "hello", some []⟩, some "stop"⟩ : OpenAIChoice) :: [] ∧
     (⟨0, ⟨"assistant", some "hello", some []⟩, some "stop"⟩ :
        OpenAIChoice).message.tool_calls = some []) ∧
    completion_map ⟨"m", [⟨0, ⟨"assistant", some "hello", some []⟩, some "stop"⟩], none⟩ =
      .ok ⟨.ToolCall (([] : List OpenAIToolCall).map toGenericToolCall),
           (none : Option OpenAIUsage).map usageToTokenUsage, some "stop"⟩ :=
  ⟨⟨rfl, rfl⟩, tool_calls_take_precedence_over_content _ _ _ _ rfl rfl⟩

/-! ## Claim C9 -/

/-- C9: a configuration failure fails the invocation immediately:
with a missing API key, `get_provider` (run inside `Agent::new`) rejects
the config before the attempt loop ever starts, so the result is the
`ConfigError` alone — for every provider oracle, i.e. no completion is
issued and no retry budget is consumed before the failure surfaces. -/
theorem config_failure_fails_before_any_attempt (cfg : LlmConfig)
    (hp : cfg.provider = .OpenAI) (hk : cfg.api_key = none)
    (execTool : String → String → Except String String)
    (validate : String → Except String Unit) (backstory : String)
    (goals : List String) (task : Task) (formatPrompt : String)
    (oracle : List (Except String CompletionResponse)) :
    agent_run cfg execTool validate backstory goals task formatPrompt oracle =
      .error (.ConfigError "Missing API key for provider: OpenAI") := by
  unfold agent_run get_provider LlmConfig.validate
  rw [hp, hk]
  rfl

/-- Witness for C9: an OpenAI config with no API key, handed any oracle,
fails with the rendered `ConfigError` and never reaches the loop. -/
theorem config_failure_fails_before_any_attempt_witness :
    ((⟨.OpenAI, "gpt-4o", none, none⟩ : LlmConfig).provider = .OpenAI ∧
     (⟨.OpenAI, "gpt-4o", none, none⟩ : LlmConfig).api_key = none) ∧
    agent_run ⟨.OpenAI, "gpt-4o", none, none⟩ (fun _ _ => .ok "") (fun _ => .ok ())
        "b" ["g"] ⟨"t", none⟩ "f" [.ok ⟨.Message "42", none, none⟩] =
      .error (.ConfigError "Missing API key for provider: OpenAI") :=
  ⟨⟨rfl, rfl⟩,
   config_failure_fails_before_any_attempt _ rfl rfl _ _ _ _ _ _ _⟩

/-! ## Claim C7 -/

/-- C7: for every tool-call batch, the per-batch loop invokes the tool
bridge exactly once per call, in batch order (the instrumented invocation
trace is exactly the calls' `(name, arguments)` pairs in order); each call
— success or failure — contributes exactly one Tool-role transcript entry
whose content is the bridge's result string or the formatted error text;
and a failing tool aborts neither the rest of the batch nor the attempt
(the loop resumes with the extended transcript whatever `execTool`
returned). -/
theorem tool_batch_once_per_call_in_order
    (execTool : String → String → Except String String)
    (calls : List ToolCallRequest) (usage : Option TokenUsage)
    (fr : Option String) (restOracle : List (Except String CompletionResponse))
    (ms : List ChatMessage) :
    (toolTurnsTraced execTool calls).1 =
        calls.map (fun c => (c.function.name, c.function.arguments)) ∧
    (toolTurnsTraced execTool calls).2 =
        calls.map (fun c =>
          (⟨.Tool, some (toolResultContent execTool c), none, some c.id⟩ : ChatMessage)) ∧
    execute_with_llm execTool (.ok ⟨.ToolCall calls, usage, fr⟩ :: restOracle) ms =
      ⟨ms :: (execute_with_llm execTool restOracle
                (ms ++ assistantToolMsg calls :: toolTurns execTool calls)).trace,
       (execute_with_llm execTool restOracle
          (ms ++ assistantToolMsg calls :: toolTurns execTool calls)).messages,
       (execute_with_llm execTool restOracle
          (ms ++ assistantToolMsg calls :: toolTurns execTool calls)).rest,
       (execute_with_llm execTool restOracle
          (ms ++ assistantToolMsg calls :: toolTurns execTool calls)).outcome⟩ := by
  refine ⟨?_, ?_, rfl⟩
  · induction calls with
    | nil => rfl
    | cons c rest ih => simpa [toolTurnsTraced] using ih
  · induction calls with
    | nil => rfl
    | cons c rest ih => simpa [toolTurnsTraced, toolMsg] using ih

/-! ## Claim C2 -/

/-- Counterexample to C2 as stated: the reassembler writes a present `id`
(and a present `function.name`) unconditionally. Feeding index 0 an id
`"a"` and then an id `"b"` leaves `"b"` stored, not the first write `"a"`;
likewise a name `"f"` then `"g"` leaves `"g"`. -/
theorem first_write_wins_counterexample :
    aggId (applyToolCallDelta emptyAgg ⟨0, some "a", none, none⟩).1 0 = some "a" ∧
    aggId (applyToolCallDelta (applyToolCallDelta emptyAgg ⟨0, some "a", none, none⟩).1
        ⟨0, some "b", none, none⟩).1 0 = some "b" ∧
    aggName (applyToolCallDelta emptyAgg ⟨0, none, none, some ⟨some "f", none⟩⟩).1 0
      = some "f" ∧
    aggName (applyToolCallDelta
        (applyToolCallDelta emptyAgg ⟨0, none, none, some ⟨some "f", none⟩⟩).1
        ⟨0, none, none, some ⟨some "g", none⟩⟩).1 0 = some "g" ∧
    some "b" ≠ some "a" ∧ some "g" ≠ some "f" := by
  decide

/-- C2 amended: last-write-wins — a delta carrying a present `id` (and a
present `function.name`) for an index overwrites whatever the accumulator
stored there, whatever the prior state was. -/
theorem id_name_last_write_wins (agg : Aggregator) (i : Nat) (x n : String)
    (tt : Option String) (args : Option String) :
    aggId (applyToolCallDelta agg ⟨i, some x, tt, some ⟨some n, args⟩⟩).1 i = some x ∧
    aggName (applyToolCallDelta agg ⟨i, some x, tt, some ⟨some n, args⟩⟩).1 i = some n := by
  cases hagg : agg i with
  | none => cases args <;> simp [aggId, aggName, applyToolCallDelta, hagg]
  | some e =>
      cases hf : e.function <;> cases args <;>
        simp [aggId, aggName, applyToolCallDelta, hagg, hf]

/-! ## Claim C4 -/

/-- One `arguments` fragment for index `i` appends to the stored buffer,
an absent buffer read as `""`. -/
theorem aggArgs_applyToolCallDelta_argDelta (agg : Aggregator) (i : Nat) (s : String) :
    aggArgs (applyToolCallDelta agg (argDelta i s)).1 i
      = some ((aggArgs agg i).getD "" ++ s) := by
  cases hagg : agg i with
  | none => simp [aggArgs, applyToolCallDelta, argDelta, hagg]
  | some e =>
      cases hf : e.function with
      | none => simp [aggArgs, applyToolCallDelta, argDelta, hagg, hf]
      | some f =>
          cases ha : f.arguments <;>
            simp [aggArgs, applyToolCallDelta, argDelta, hagg, hf, ha]

/-- Processing a non-empty fragment sequence for index `i` extends the
stored buffer by the fragments' concatenation in arrival order. -/
theorem aggArgs_applyArgFragments (i : Nat) :
    ∀ (frags : List String) (agg : Aggregator), frags ≠ [] →
      aggArgs (applyArgFragments agg i frags) i
        = some ((aggArgs agg i).getD "" ++ concatAll frags)
  | [], _, h => absurd rfl h
  | [s], agg, _ => by
      simp [applyArgFragments, aggArgs_applyToolCallDelta_argDelta, concatAll,
        String.append_empty]
  | s :: s' :: rest, agg, _ => by
      have ih := aggArgs_applyArgFragments i (s' :: rest)
        (applyToolCallDelta agg (argDelta i s)).1 (by simp)
      rw [applyArgFragments, ih, aggArgs_applyToolCallDelta_argDelta]
      simp [concatAll, String.append_assoc]

/-- C4: for a fixed tool-call index and any ordered sequence of streamed
`arguments` fragments, the stored buffer after processing them is exactly
the concatenation of the fragments in arrival order — any split of an
arguments string reassembles into the original string. -/
theorem arguments_reassemble_in_order (i : Nat) (frags : List String)
    (h : frags ≠ []) :
    aggArgs (applyArgFragments emptyAgg i frags) i = some (concatAll frags) := by
  rw [aggArgs_applyArgFragments i frags emptyAgg h]
  simp [aggArgs, emptyAgg, String.empty_append]

/-- Witness for C4: the split `["{\x7ba\x22:", "1\x7d"]` of
`"{\x22a\x22:1}"` reassembles exactly. -/
theorem arguments_reassemble_in_order_witness :
    (["\x7b\"a\":", "1\x7d"] : List String) ≠ [] ∧
    aggArgs (applyArgFragments emptyAgg 0 ["\x7b\"a\":", "1\x7d"]) 0
      = some (concatAll ["\x7b\"a\":", "1\x7d"]) :=
  ⟨by decide, arguments_reassemble_in_order 0 ["\x7b\"a\":", "1\x7d"] (by decide)⟩

/-! ## Claim C6 -/

/-- Counterexample to C6 as stated: a text delta whose content is the
empty string (`content: Some("")`, as OpenAI's first stream chunk sends)
is a text delta, yet it emits no chunk and leaves the partial tool-call
accumulator untouched — here the pending `arguments` buffer `"x"` for
index 0 survives it. -/
theorem text_delta_clears_counterexample :
    applyDelta (applyToolCallDelta emptyAgg (argDelta 0 "x")).1 ⟨none, some "", none⟩
      = ((applyToolCallDelta emptyAgg (argDelta 0 "x")).1, none) ∧
    aggArgs (applyToolCallDelta emptyAgg (argDelta 0 "x")).1 0 = some "x" := by
  exact ⟨rfl, by decide⟩

/-- C6 amended: every **non-empty** text delta is emitted as a `Text`
chunk immediately and clears the whole tool-call accumulator — whatever
`role` or `tool_calls` accompany it — so a tool-call delta that follows it
starts a fresh accumulation; an empty text delta emits nothing and leaves
the accumulator unchanged (shown by the counterexample). -/
theorem nonempty_text_emits_and_clears (agg : Aggregator) (r : Option String)
    (tc : Option (List OpenAIStreamToolCallDelta)) (t : String)
    (h : t.isEmpty = false) :
    applyDelta agg ⟨r, some t, tc⟩ = (emptyAgg, some ⟨.Text t, none, none⟩) ∧
    ∀ (j : Nat) (s : String),
      aggArgs (applyToolCallDelta emptyAgg (argDelta j s)).1 j = some s := by
  constructor
  · simp [applyDelta, h]
  · intro j s
    rw [aggArgs_applyToolCallDelta_argDelta]
    simp [aggArgs, emptyAgg, String.empty_append]

/-- Witness for C6 amended: the non-empty text delta `"hi"` arriving over
a pending accumulation for index 0 emits `Text "hi"` and resets the
accumulator to empty. -/
theorem nonempty_text_emits_and_clears_witness :
    ("hi" : String).isEmpty = false ∧
    (applyDelta (applyToolCallDelta emptyAgg (argDelta 0 "x")).1 ⟨none, some "hi", none⟩
        = (emptyAgg, some ⟨.Text "hi", none, none⟩) ∧
      ∀ (j : Nat) (s : String),
        aggArgs (applyToolCallDelta emptyAgg (argDelta j s)).1 j = some s) :=
  ⟨by decide,
   nonempty_text_emits_and_clears (applyToolCallDelta emptyAgg (argDelta 0 "x")).1
     none none "hi" (by decide)⟩

/-! ## Claim C5 -/

/-- Counterexample to C5 as stated: one transport chunk carries a content
delta line and, behind it, the `finish_reason: "stop"` line; then the
transport reaches EOF. The content line sets `result_chunk`, so the
end-of-chunk flush is skipped and the collected `finish_reason` is
dropped: the whole output stream is one `Text "hi"` chunk with
`finish_reason = none` and `usage = none` — the consumer never observes a
terminal marker although a `finish_reason` was received and EOF was
reached. -/
theorem terminal_marker_counterexample :
    runStream emptyAgg
        [[SseLine.payload ⟨"m", [⟨0, ⟨some "assistant", some "hi", none⟩, none⟩], none⟩,
          SseLine.payload ⟨"m", [⟨0, ⟨none, none, none⟩, some "stop"⟩], none⟩]]
      = [.ok ⟨.Text "hi", none, none⟩] := by
  rfl

/-- C5 amended: the terminal flush is per transport chunk, not per
stream — when a transport chunk's lines collect a `finish_reason` (with or
without usage) and produce no content or tool-call chunk of their own, the
adapter emits from that chunk a final chunk with an empty `Text` delta
carrying the collected usage and `finish_reason`; a `finish_reason`
sharing a transport chunk with an emitted delta is dropped, and a bare
transport EOF produces no terminal chunk (the counterexample shows both
drops). -/
theorem finish_reason_chunk_flushes_terminal_marker (agg : Aggregator)
    (model : String) (idx : Nat) (reason : String) (usage : Option OpenAIUsage) :
    processChunk agg
        [SseLine.payload ⟨model, [⟨idx, ⟨none, none, none⟩, some reason⟩], usage⟩]
      = .ok (agg, some ⟨.Text "", usage.map usageToTokenUsage, some reason⟩) := by
  cases usage <;> rfl

/-! ## Claim C3 -/

/-- Splitting the role-sequencing walk over an append. -/
theorem justifiedFromB_append :
    ∀ (xs : List ChatMessage) (ctx : Option (List String)) (ys : List ChatMessage),
      justifiedFromB ctx (xs ++ ys)
        = (justifiedFromB ctx xs && justifiedFromB (ctxAfter ctx xs) ys)
  | [], ctx, ys => by simp [justifiedFromB, ctxAfter]
  | m :: xs, ctx, ys => by
      cases hm : m.role <;>
        simp [justifiedFromB, ctxAfter, hm, justifiedFromB_append xs, Bool.and_assoc]

/-- The Tool turns appended for a batch are all justified by any context
offering every call's id. -/
theorem justifiedFromB_toolTurns (execTool : String → String → Except String String) :
    ∀ (calls : List ToolCallRequest) (ids : List String),
      (∀ c ∈ calls, c.id ∈ ids) →
      justifiedFromB (some ids) (toolTurns execTool calls) = true
  | [], _, _ => rfl
  | c :: rest, ids, h => by
      have hrest := justifiedFromB_toolTurns execTool rest ids
        (fun c' hc' => h c' (List.mem_cons_of_mem _ hc'))
      simp only [toolTurns, toolTurnsTraced] at hrest ⊢
      simp [justifiedFromB, toolMsg, hrest, h c (List.mem_cons_self c rest)]

/-- The ids of the Assistant tool-call turn are exactly the batch's ids. -/
theorem msgToolIds_assistantToolMsg (calls : List ToolCallRequest) :
    msgToolIds (assistantToolMsg calls) = calls.map (fun c => c.id) := rfl

/-- Rust `execute_with_llm` preserves the role-sequencing invariant: from any
well tool-sequenced transcript, the transcript after any number of tool
round-trips is still well tool-sequenced. -/
theorem execute_with_llm_preserves_toolSeq
    (execTool : String → String → Except String String) :
    ∀ (oracle : List (Except String CompletionResponse)) (ms : List ChatMessage),
      ToolSeqOK ms → ToolSeqOK (execute_with_llm execTool oracle ms).messages
  | [], _, h => h
  | step :: rest, ms, h => by
      match step with
      | .error e => exact h
      | .ok response =>
          match hk : response.kind with
          | .Message content => simpa [execute_with_llm, hk] using h
          | .ToolCall tool_calls =>
              have hseq : ToolSeqOK (ms ++ assistantToolMsg tool_calls ::
                  toolTurns execTool tool_calls) := by
                unfold ToolSeqOK at h ⊢
                rw [justifiedFromB_append, h, Bool.true_and]
                have : justifiedFromB (ctxAfter none ms)
                    (assistantToolMsg tool_calls :: toolTurns execTool tool_calls)
                    = justifiedFromB (some (msgToolIds (assistantToolMsg tool_calls)))
                        (toolTurns execTool tool_calls) := by
                  simp [justifiedFromB, assistantToolMsg]
                rw [this, msgToolIds_assistantToolMsg]
                exact justifiedFromB_toolTurns execTool tool_calls _
                  (fun c hc => List.mem_map_of_mem _ hc)
              have ih := execute_with_llm_preserves_toolSeq execTool rest
                (ms ++ assistantToolMsg tool_calls :: toolTurns execTool tool_calls) hseq
              simpa [execute_with_llm, hk] using ih

/-- C3: within one attempt started from the agent's transcript seed, after
any number of tool round-trips, every Tool-role message in the transcript
carries a `tool_call_id` equal to the id of one tool call of the
immediately preceding Assistant message's `tool_calls` (only Tool-role
messages standing between the two), and no Tool-role message exists
without such a preceding Assistant tool-call turn. -/
theorem attempt_transcript_tool_sequencing
    (execTool : String → String → Except String String)
    (oracle : List (Except String CompletionResponse)) (backstory : String)
    (goals : List String) (task : Task) (formatPrompt : String) :
    ToolSeqOK (execute_with_llm execTool oracle
        (seedMessages backstory goals task formatPrompt)).messages := by
  apply execute_with_llm_preserves_toolSeq
  rfl

/-! ## Claim C1 -/

/-- C1 evaluated at the failing input: the validator rejects the first
attempt's output `"42"` with `"bad output"`; the second completion is then
issued with a transcript equal to the bare rebuilt seed — the corrective
User turn quoting the validation error, which `Agent::call` pushes onto
its local `messages` vector, never reaches the provider because the next
iteration rebuilds `messages` from the seed. The request trace is
`[seed, seed]`, and the second request differs from the
seed-plus-corrective transcript the claim (and the spec) require. -/
theorem retry_transcript_drops_corrective_turn :
    call (fun _ _ => .ok "r")
        (fun s => if s = "good" then .ok () else .error "bad output")
        "backstory" ["goal"] ⟨"task", none⟩ "format"
        [.ok ⟨.Message "42", none, none⟩, .ok ⟨.Message "good", none, none⟩]
      = ([seedMessages "backstory" ["goal"] ⟨"task", none⟩ "format",
          seedMessages "backstory" ["goal"] ⟨"task", none⟩ "format"],
         some (.ok "good")) ∧
    seedMessages "backstory" ["goal"] ⟨"task", none⟩ "format"
      ≠ seedMessages "backstory" ["goal"] ⟨"task", none⟩ "format"
        ++ [correctiveMsg "bad output"] := by
  exact ⟨rfl, by decide⟩

end Merco
